import Mathlib

/-!
Shallow embedding of the synchronization / webhook-consistency core of the
Shopify merchant-app orchestrator, together with proofs settling the frozen
claims about its natural-language specification.

Source modules embedded here:
- `server/services/shopifyService.js` (GraphQL variant):
  `normalizeProductId`, `transformProduct`;
- `server/services/syncService.js`: `fullSync`, `syncSingleProduct`,
  `deleteProduct`;
- `server/services/webhookService.js` (GraphQL variant): `registerWebhooks`;
- `server/routes/recommendations.js`: pivot computation of
  `GET /api/recommend` and its error path;
- `app/routes/api/recommendations.js`: the Remix `loader`;
- `server/services/settingsService.js`: `saveSettings` and
  `AI_AUTOPILOT_DEFAULTS`;
- `server/routes/webhooks.js` (raw-body variant): the product webhook
  handlers;
- `server/routes/auth.js`: `mintOAuthState`, `consumeOAuthState`.

JavaScript-isms are modelled explicitly: `x || d` on possibly-missing
strings is `jsOr`, `String.prototype.trim` is `jsTrim` (common whitespace
characters), `[...new Set(xs)]` is `jsSetDedup` (first-occurrence
deduplication preserving order), and Mongo collections are association
lists of rows.
-/

set_option maxRecDepth 8000

/-- Whitespace test used by the model of `String.prototype.trim`. -/
def jsWhitespace (c : Char) : Bool :=
  c == ' ' || c == '\t' || c == '\n' || c == '\r'

/-- Character-level splitter mirroring `String.split` / JavaScript
`String.prototype.split(',')`: separators delimit fields, empty fields are
kept (so `""` yields `[""]` and a trailing separator yields a trailing
`""`). Accumulates the current field in reverse. -/
def jsSplitAux (p : Char → Bool) : List Char → List Char → List String
  | [], acc => [String.mk acc.reverse]
  | c :: cs, acc =>
      if p c then String.mk acc.reverse :: jsSplitAux p cs []
      else jsSplitAux p cs (c :: acc)

/-- Model of JavaScript `s.split(sep)` for a character predicate. -/
def jsSplit (p : Char → Bool) (s : String) : List String :=
  jsSplitAux p s.data []

/-- Model of `String.prototype.startsWith`, on the underlying characters. -/
def jsStartsWith (s pre : String) : Bool :=
  pre.data.isPrefixOf s.data

/-- Model of `String.prototype.trim`: drop leading and trailing whitespace. -/
def jsTrim (s : String) : String :=
  String.mk ((((s.data.dropWhile jsWhitespace).reverse.dropWhile jsWhitespace).reverse))

/-- Model of the JavaScript expression `x || d` for a possibly-missing string
`x`: `undefined`/`null` and the empty string are falsy and yield `d`. -/
def jsOr (x : Option String) (d : String) : String :=
  match x with
  | none => d
  | some s => if s = "" then d else s

/-- Worker for `jsSetDedup`, carrying the set of elements already seen. -/
def jsSetDedupAux : List String → List String → List String
  | [], _ => []
  | x :: xs, seen =>
      if seen.contains x then jsSetDedupAux xs seen
      else x :: jsSetDedupAux xs (x :: seen)

/-- Model of `[...new Set(xs)]`: deduplicate keeping the first occurrence of
each element, preserving order. -/
def jsSetDedup (l : List String) : List String :=
  jsSetDedupAux l []

/-- From `shopifyService.js` `normalizeProductId`: coerce to string, trim,
and prefix with the GraphQL GID namespace unless already in GID form. -/
def normalizeProductId (productId : String) : String :=
  let raw := jsTrim productId
  if raw = "" then ""
  else if jsStartsWith raw "gid://shopify/Product/" then raw
  else "gid://shopify/Product/" ++ raw

/-- The `tags` field of a raw Shopify product: an array of strings, a
delimited string, or absent (`null`/`undefined`). -/
inductive TagsInput
  | arr (tags : List String)
  | str (s : String)
  | null
deriving Repr, DecidableEq

/-- A variant node as returned by the GraphQL products query; nullable
fields are `Option`. -/
structure RawVariantNode where
  id : String
  title : Option String
  price : Option String
  compareAtPrice : Option String
  sku : Option String
deriving Repr, DecidableEq

/-- A variant in the transformed product shape (also the shape of raw REST
variants, which `transformProduct` passes through unchanged). -/
structure Variant where
  id : String
  title : String
  price : Option String
  compare_at_price : Option String
  sku : String
deriving Repr, DecidableEq

/-- The `variants` field of a raw Shopify product: GraphQL
`variants.edges` (entries may be null), a plain REST array, or absent. -/
inductive VariantsInput
  | gql (edges : List (Option RawVariantNode))
  | rest (variants : List Variant)
  | absent
deriving Repr, DecidableEq

/-- A raw Shopify product as consumed by `transformProduct`; nullable
string fields are `Option`, `images` holds the `src` of each entry. -/
structure RawProduct where
  id : String
  title : Option String
  productType : Option String
  product_type : Option String
  tags : TagsInput
  variants : VariantsInput
  featuredImageUrl : Option String
  imageSrc : Option String
  imagesSrc : List (Option String)
  vendor : Option String
  handle : Option String
deriving Repr, DecidableEq

/-- The transformed (canonical) product shape stored in the local mirror. -/
structure Product where
  shopifyProductId : String
  title : String
  productType : String
  tags : List String
  price : String
  image : String
  variants : List Variant
  vendor : String
  handle : String
deriving Repr, DecidableEq

/-- Tag normalization branch of `transformProduct`: an array is mapped
through `trim` and filtered for truthiness; anything else is coerced with
`String(rawTags || '')`, split on commas, trimmed, and filtered. -/
def normalizeTags : TagsInput → List String
  | .arr ts => (ts.map jsTrim).filter (fun t => t ≠ "")
  | .str s => ((jsSplit (fun c => c == ',') s).map jsTrim).filter (fun t => t ≠ "")
  | .null => ((jsSplit (fun c => c == ',') "")).map jsTrim |>.filter (fun t => t ≠ "")

/-- Mapping of a GraphQL variant node into the stored variant shape
(`title || ''`, `price || '0'`, `compareAtPrice || null`, `sku || ''`). -/
def mapGraphQlVariant (n : RawVariantNode) : Variant :=
  { id := n.id
    title := jsOr n.title ""
    price := some (jsOr n.price "0")
    compare_at_price :=
      match n.compareAtPrice with
      | none => none
      | some s => if s = "" then none else some s
    sku := jsOr n.sku "" }

/-- Variant resolution of `transformProduct`: use the GraphQL edges when
they yield at least one node, else a plain REST array, else `[]`. -/
def resolveVariants : VariantsInput → List Variant
  | .gql edges =>
      (edges.filterMap id).map mapGraphQlVariant
  | .rest vs => vs
  | .absent => []

/-- From `shopifyService.js` `transformProduct` (GraphQL variant): the
canonical product built from a raw Shopify product. -/
def transformProduct (p : RawProduct) : Product :=
  let tags := normalizeTags p.tags
  let variants := resolveVariants p.variants
  let firstVariantPrice : String :=
    match variants.head? with
    | none => "0"
    | some v => jsOr v.price "0"
  { shopifyProductId := normalizeProductId p.id
    title := jsOr p.title ""
    productType := jsOr p.productType (jsOr p.product_type "")
    tags := tags
    price := firstVariantPrice
    image := jsOr p.featuredImageUrl (jsOr p.imageSrc (jsOr (p.imagesSrc.head?.getD none) ""))
    variants := variants
    vendor := jsOr p.vendor ""
    handle := jsOr p.handle "" }


/-- A merchant row of the `Merchant` collection (fields relevant to sync). -/
structure Merchant where
  mid : Nat
  shop : String
  lastSync : Option Nat
deriving Repr, DecidableEq

/-- A row of the `Product` collection: a transformed product tagged with
the owning merchant's id. -/
structure ProductRow where
  merchantId : Nat
  product : Product
deriving Repr, DecidableEq

/-- The product shape pushed to the Flask recommendation engine
(`syncService.js` builds it identically in all three operations). -/
structure FlaskProduct where
  id : String
  title : String
  product_type : String
  tags : List String
  price : String
  image : String
deriving Repr, DecidableEq

/-- The Flask-facing projection of a stored product. -/
def toFlaskProduct (p : Product) : FlaskProduct :=
  { id := p.shopifyProductId
    title := p.title
    product_type := p.productType
    tags := p.tags
    price := p.price
    image := p.image }

/-- The local store: `Merchant` and `Product` collections. -/
structure SyncState where
  merchants : List Merchant
  products : List ProductRow
deriving Repr, DecidableEq

/-- Model of `Merchant.findOne({ shop })`. -/
def findMerchant (st : SyncState) (shop : String) : Option Merchant :=
  st.merchants.find? (fun m => m.shop == shop)

/-- Calls made to the Flask recommendation engine client. -/
inductive EngineCall
  | registerProducts (shop : String) (products : List FlaskProduct)
  | clearMerchant (shop : String)
deriving Repr, DecidableEq

/-- From `syncService.js` `fullSync`: look up the merchant (error when
unknown), transform the fetched catalog, delete all of the merchant's
product rows, bulk-insert the transformed rows, push the full Flask list,
and stamp `lastSync`. The externally fetched catalog and the current clock
are parameters. Returns the new store and the pushed Flask list. -/
def fullSync (shop : String) (catalog : List RawProduct) (now : Nat)
    (st : SyncState) : Except String (SyncState × List FlaskProduct) :=
  match findMerchant st shop with
  | none => .error ("Merchant " ++ shop ++ " not found")
  | some m =>
      let productsToSave := catalog.map
        (fun sp => ProductRow.mk m.mid (transformProduct sp))
      let afterDelete := st.products.filter (fun r => r.merchantId ≠ m.mid)
      let newProducts := afterDelete ++ productsToSave
      let flaskProducts := productsToSave.map (fun r => toFlaskProduct r.product)
      let newMerchants := st.merchants.map
        (fun x => if x.shop == shop then { x with lastSync := some now } else x)
      .ok ({ merchants := newMerchants, products := newProducts }, flaskProducts)

/-- Model of Mongo `findOneAndUpdate(filter, doc, { upsert: true })` on the
`Product` collection keyed by (merchant, product id): replace the first
matching row in place, or append when no row matched. -/
def upsertProductRow (rows : List ProductRow) (row : ProductRow) : List ProductRow :=
  if rows.any (fun r => r.merchantId == row.merchantId &&
      r.product.shopifyProductId == row.product.shopifyProductId) then
    rows.map (fun r =>
      if r.merchantId == row.merchantId &&
          r.product.shopifyProductId == row.product.shopifyProductId then row else r)
  else rows ++ [row]

/-- From `syncService.js` `syncSingleProduct`: transform and upsert one
product, then re-push the merchant's full product list to Flask. -/
def syncSingleProduct (shop : String) (shopifyProduct : RawProduct)
    (st : SyncState) : Except String (SyncState × EngineCall) :=
  match findMerchant st shop with
  | none => .error ("Merchant " ++ shop ++ " not found")
  | some m =>
      let row := ProductRow.mk m.mid (transformProduct shopifyProduct)
      let newProducts := upsertProductRow st.products row
      let allProducts := newProducts.filter (fun r => r.merchantId == m.mid)
      let flaskProducts := allProducts.map (fun r => toFlaskProduct r.product)
      .ok ({ st with products := newProducts },
           .registerProducts shop flaskProducts)

/-- From `syncService.js` `deleteProduct`: look up the merchant, normalize
the incoming id, `deleteOne` the matching row, then either clear the
merchant's engine data (no products remain) or re-push the remaining
list. -/
def deleteProduct (shop : String) (shopifyProductId : String)
    (st : SyncState) : Except String (SyncState × EngineCall) :=
  match findMerchant st shop with
  | none => .error ("Merchant " ++ shop ++ " not found")
  | some m =>
      let normalizedProductId := normalizeProductId shopifyProductId
      let newProducts := st.products.eraseP
        (fun r => r.merchantId == m.mid &&
          r.product.shopifyProductId == normalizedProductId)
      let remainingProducts := newProducts.filter (fun r => r.merchantId == m.mid)
      let flaskProducts := remainingProducts.map (fun r => toFlaskProduct r.product)
      if flaskProducts.length = 0 then
        .ok ({ st with products := newProducts }, .clearMerchant shop)
      else
        .ok ({ st with products := newProducts },
             .registerProducts shop flaskProducts)

/-- A desired webhook subscription (`WEBHOOK_SUBSCRIPTIONS` entry). -/
structure DesiredSub where
  topic : String
  path : String
deriving Repr, DecidableEq

/-- An existing webhook subscription as returned by `_listWebhooks`. -/
structure WebhookSub where
  id : String
  topic : String
  address : String
deriving Repr, DecidableEq

/-- Drop trailing `/` characters, mirroring `replace(/\x7b\x7d/, '')` with
pattern slash-plus-dollar in `_normalizeHost` / `_normalizeAddress`. -/
def stripTrailingSlashes (s : String) : String :=
  String.mk ((s.data.reverse.dropWhile (fun c => c == '/')).reverse)

/-- From `webhookService.js` `_normalizeHost`: stringify, trim, strip
trailing slashes. -/
def normalizeHost (host : Option String) : String :=
  stripTrailingSlashes (jsTrim (host.getD ""))

/-- From `webhookService.js` `_normalizeAddress`: same normalization. -/
def normalizeAddress (address : Option String) : String :=
  stripTrailingSlashes (jsTrim (address.getD ""))

/-- Mutable state threaded through `registerWebhooks`: the three counters
plus the observable side effects (deleted subscription ids in deletion
order, created (topic, callbackUrl) pairs in creation order). -/
structure ReconcileState where
  created : Nat
  removed : Nat
  unchanged : Nat
  deletedIds : List String
  createdSubs : List (String × String)
deriving Repr, DecidableEq

/-- Per-topic body of the `for (const sub of WEBHOOK_SUBSCRIPTIONS)` loop in
`registerWebhooks` (GraphQL variant): partition the topic's existing
subscriptions into address-matching and stale entries, delete every stale
one, then either keep exactly one match (deleting duplicate copies) and
count the topic unchanged, or create the desired subscription. -/
def ensureTopic (host : String) (existing : List WebhookSub)
    (sub : DesiredSub) (acc : ReconcileState) : ReconcileState :=
  let desiredAddress := host ++ sub.path
  let topicWebhooks := existing.filter (fun w => w.topic == sub.topic)
  let matchedSubs := topicWebhooks.filter
    (fun w => normalizeAddress (some w.address) == desiredAddress)
  let stale := topicWebhooks.filter
    (fun w => normalizeAddress (some w.address) != desiredAddress)
  let acc := stale.foldl
    (fun a w =>
      { a with removed := a.removed + 1, deletedIds := a.deletedIds ++ [w.id] })
    acc
  if matchedSubs.length > 0 then
    let acc := (matchedSubs.drop 1).foldl
      (fun a w =>
        { a with removed := a.removed + 1, deletedIds := a.deletedIds ++ [w.id] })
      acc
    { acc with unchanged := acc.unchanged + 1 }
  else
    { acc with
        created := acc.created + 1
        createdSubs := acc.createdSubs ++ [(sub.topic, desiredAddress)] }

/-- From `webhookService.js` `registerWebhooks` (GraphQL variant): validate
the configured host, then reconcile every desired topic against the listed
existing subscriptions. The existing subscription list (an external read)
is a parameter. -/
def registerWebhooks (hostEnv : Option String) (desired : List DesiredSub)
    (existing : List WebhookSub) : Except String ReconcileState :=
  let host := normalizeHost hostEnv
  if host = "" then .error "SHOPIFY_HOST is required to register webhooks"
  else .ok (desired.foldl (fun acc sub => ensureTopic host existing sub acc)
    { created := 0, removed := 0, unchanged := 0,
      deletedIds := [], createdSubs := [] })

/-- From `routes/recommendations.js` `toGid`: falsy ids pass through, ids
already in `gid://` form are kept, bare ids get the product GID prefix. -/
def toGid (id : String) : String :=
  if id = "" then id
  else if jsStartsWith id "gid://" then id
  else "gid://shopify/Product/" ++ id

/-- From `GET /api/recommend` in `routes/recommendations.js`: the merged
`added_to_cart` history — normalized cart ids merged (via a `Set`) with the
initially empty stored history, sliced to 5. -/
def addedToCartHistory (cart : List String) : List String :=
  (jsSetDedup (cart.map toGid ++ [])).take 5

/-- From `GET /api/recommend` in `routes/recommendations.js`: the effective
pivot product id sent to the engine. A truthy `productId` query parameter
is normalized and used directly; otherwise, when the merged cart history is
non-empty, its first element becomes the pivot; otherwise there is none. -/
def effectiveProductId (productId : Option String) (cart : List String) :
    Option String :=
  let fromQuery : Option String :=
    match productId with
    | some p => if p ≠ "" then some (toGid p) else none
    | none => none
  match fromQuery with
  | some e => some e
  | none =>
      if (addedToCartHistory cart).length > 0 then
        (addedToCartHistory cart).head?
      else none

/-- A recommendation item as returned by the engine (field used by the
handlers). -/
structure RecItem where
  shopify_product_id : String
deriving Repr, DecidableEq

/-- A recommendation item after handle enrichment in `GET /api/recommend`. -/
structure EnrichedRec where
  shopify_product_id : String
  handle : String
  product_url : String
deriving Repr, DecidableEq

/-- Handle enrichment of `GET /api/recommend`: look each item's handle up
in the local mirror (`handleOf` models the `handleMap` built from the
`Product` docs); unresolvable handles yield an empty handle and URL. -/
def enrichRecs (recs : List RecItem) (handleOf : String → Option String) :
    List EnrichedRec :=
  recs.map (fun r =>
    let h := jsOr (handleOf r.shopify_product_id) ""
    { shopify_product_id := r.shopify_product_id
      handle := h
      product_url := if h = "" then "" else "/products/" ++ h })

/-- Generic HTTP response summary used for the embedded route handlers. -/
structure RouteResponse (β : Type) where
  status : Nat
  body : β
deriving Repr, DecidableEq

/-- Body of a `GET /api/recommend` response. -/
inductive ApiRecommendBody
  | missingShop
  | merchantNotFound
  | recommendations (recs : List EnrichedRec)
  | recommendFailure (details : String)
deriving Repr, DecidableEq

/-- From `GET /api/recommend` in `server/routes/recommendations.js`: the
response as a function of the request's shop parameter, the merchant
lookup, the engine call outcome and the local handle map. A rejected
engine promise is caught by the route's `catch`, which answers HTTP 500
with a `Failed to get recommendations` body. -/
def apiRecommendHandler (shop : Option String) (merchantFound : Bool)
    (engine : Except String (List RecItem)) (handleOf : String → Option String) :
    RouteResponse ApiRecommendBody :=
  if jsOr shop "" = "" then { status := 400, body := .missingShop }
  else if !merchantFound then { status := 404, body := .merchantNotFound }
  else
    match engine with
    | .error details => { status := 500, body := .recommendFailure details }
    | .ok recs => { status := 200, body := .recommendations (enrichRecs recs handleOf) }

/-- The parsed `/api/recommend` payload seen by the Remix loader:
`data.recommendations` may be missing. -/
structure RecsData where
  recommendations : Option (List RecItem)
deriving Repr, DecidableEq

/-- The parsed `/api/popular` payload, returned verbatim by the loader. -/
structure PopularData where
  products : List RecItem
deriving Repr, DecidableEq

/-- Body of a loader response in `app/routes/api/recommendations.js`. -/
inductive LoaderBody
  | missingParams
  | recsJson (data : RecsData)
  | popularJson (pop : PopularData)
  | errorJson (message : String)
deriving Repr, DecidableEq

/-- From the `loader` of `app/routes/api/recommendations.js`: reject
requests lacking `merchantId`/`productId`; call the engine; when the
parsed payload is null, lacks a `recommendations` field, or carries an
empty list, answer with the popular query's payload instead; any thrown
error (from either engine call) is caught and answered as HTTP 500. -/
def loader (merchantId productId : Option String)
    (recResult : Except String (Option RecsData))
    (popResult : Except String PopularData) : RouteResponse LoaderBody :=
  if jsOr merchantId "" = "" ∨ jsOr productId "" = "" then
    { status := 400, body := .missingParams }
  else
    match recResult with
    | .error e => { status := 500, body := .errorJson e }
    | .ok data =>
        let fallback : RouteResponse LoaderBody :=
          match popResult with
          | .error e => { status := 500, body := .errorJson e }
          | .ok pop => { status := 200, body := .popularJson pop }
        match data with
        | none => fallback
        | some d =>
            match d.recommendations with
            | none => fallback
            | some recs =>
                if recs.length = 0 then fallback
                else { status := 200, body := .recsJson d }

/-- The `filters.priceProximity` sub-document. -/
structure PriceProximity where
  enabled : Bool
  range : Rat
deriving Repr, DecidableEq

/-- The `filters.tagBoost` sub-document. -/
structure TagBoost where
  enabled : Bool
  weight : Rat
deriving Repr, DecidableEq

/-- The `filters.ethicalFilter` sub-document. -/
structure EthicalFilter where
  enabled : Bool
  vegan : Bool
  sustainable : Bool
deriving Repr, DecidableEq

/-- The merchant-settings filter set. -/
structure FilterSettings where
  priceProximity : PriceProximity
  tagBoost : TagBoost
  locationFilterEnabled : Bool
  ethicalFilter : EthicalFilter
  excludeViewed : Bool
  excludePurchased : Bool
  sameCategoryOnly : Bool
deriving Repr, DecidableEq

/-- The merchant-settings signal-weight set. -/
structure WeightSettings where
  purchaseHistory : Rat
  cartItems : Rat
  currentProduct : Rat
  browsingHistory : Rat
deriving Repr, DecidableEq

/-- From `settingsService.js` `AI_AUTOPILOT_DEFAULTS.filters`. -/
def AI_AUTOPILOT_DEFAULTS_filters : FilterSettings :=
  { priceProximity := { enabled := true, range := 30 / 100 }
    tagBoost := { enabled := true, weight := 15 / 100 }
    locationFilterEnabled := true
    ethicalFilter := { enabled := false, vegan := false, sustainable := false }
    excludeViewed := false
    excludePurchased := true
    sameCategoryOnly := true }

/-- From `settingsService.js` `AI_AUTOPILOT_DEFAULTS.weights`. -/
def AI_AUTOPILOT_DEFAULTS_weights : WeightSettings :=
  { purchaseHistory := 7 / 10
    cartItems := 5 / 10
    currentProduct := 3 / 10
    browsingHistory := 1 / 10 }

/-- A persisted `MerchantSettings` document (display/design kept as opaque
blobs: their contents play no role in the claims). -/
structure SettingsDoc where
  shop : String
  mode : String
  display : String
  filters : FilterSettings
  weights : WeightSettings
  design : String
deriving Repr, DecidableEq

/-- The mongoose schema defaults applied when an upsert creates the
document (they coincide with the autopilot defaults). -/
def schemaDefaultSettings (shop : String) : SettingsDoc :=
  { shop := shop
    mode := "ai_autopilot"
    display := "defaultDisplay"
    filters := AI_AUTOPILOT_DEFAULTS_filters
    weights := AI_AUTOPILOT_DEFAULTS_weights
    design := "defaultDesign" }

/-- The request body of `POST /api/settings` as destructured by the route:
omitted fields are `undefined`. -/
structure SettingsPayload where
  mode : Option String
  display : Option String
  filters : Option FilterSettings
  weights : Option WeightSettings
  design : Option String
deriving Repr, DecidableEq

/-- From `settingsService.js` `saveSettings`: the `updateData` document —
only fields present in the payload are set, and when the payload's mode is
`ai_autopilot` the filters and weights are forced to the system defaults. -/
def buildSettingsUpdate (payload : SettingsPayload) : SettingsPayload :=
  let u : SettingsPayload :=
    { mode := payload.mode
      display := payload.display
      filters := payload.filters
      weights := payload.weights
      design := payload.design }
  if payload.mode = some "ai_autopilot" then
    { u with
        filters := some AI_AUTOPILOT_DEFAULTS_filters
        weights := some AI_AUTOPILOT_DEFAULTS_weights }
  else u

/-- Model of `MerchantSettings.findOneAndUpdate({shop}, updateData,
{upsert: true})`: paths present in the update replace the stored (or
schema-default) values, absent paths are left alone. -/
def applySettingsUpdate (existing : Option SettingsDoc) (shop : String)
    (u : SettingsPayload) : SettingsDoc :=
  let base := existing.getD (schemaDefaultSettings shop)
  { shop := shop
    mode := u.mode.getD base.mode
    display := u.display.getD base.display
    filters := u.filters.getD base.filters
    weights := u.weights.getD base.weights
    design := u.design.getD base.design }

/-- From `settingsService.js` `saveSettings`: require a known active
merchant, then upsert the built update document. -/
def saveSettings (merchant : Option Merchant) (shop : String)
    (payload : SettingsPayload) (existing : Option SettingsDoc) :
    Except String SettingsDoc :=
  match merchant with
  | none => .error "merchant not found"
  | some _ => .ok (applySettingsUpdate existing shop (buildSettingsUpdate payload))

/-- Outcome of a product webhook request: HTTP status, response body, and
whether the handler's `catch` logged a processing failure. -/
structure WebhookOutcome where
  status : Nat
  body : String
  errorLogged : Bool
deriving Repr, DecidableEq

/-- From the `POST /webhooks/products/...` handlers (create, update and
delete share this exact shape): an invalid HMAC answers 401 before any
processing, an unparsable payload answers 400, and the awaited sync
operation answers 200 `OK` on success or — through the handler's `catch`,
which also logs the error — 500 `Error` on failure. The HMAC comparison
and JSON parse outcomes are Booleans; the sync outcome is a parameter. -/
def productsWebhookHandler (hmacValid : Bool) (payloadValid : Bool)
    (syncResult : Except String Unit) : WebhookOutcome :=
  if !hmacValid then { status := 401, body := "Unauthorized", errorLogged := false }
  else if !payloadValid then { status := 400, body := "Invalid payload", errorLogged := false }
  else
    match syncResult with
    | .ok _ => { status := 200, body := "OK", errorLogged := false }
    | .error _ => { status := 500, body := "Error", errorLogged := true }

/-- A record of the in-memory `oauthStateStore` map. -/
structure OAuthStateRecord where
  shop : String
  expiresAt : Nat
deriving Repr, DecidableEq

/-- The `oauthStateStore` map, as an insertion-ordered association list. -/
abbrev OAuthStateStore := List (String × OAuthStateRecord)

/-- `OAUTH_STATE_TTL_MS = 10 * 60 * 1000`. -/
def OAUTH_STATE_TTL_MS : Nat := 10 * 60 * 1000

/-- Model of `oauthStateStore.get(state)`. -/
def storeGet (store : OAuthStateStore) (state : String) :
    Option OAuthStateRecord :=
  (store.find? (fun p => p.1 == state)).map (fun p => p.2)

/-- Model of `oauthStateStore.delete(state)`. -/
def storeDelete (store : OAuthStateStore) (state : String) : OAuthStateStore :=
  store.filter (fun p => p.1 ≠ state)

/-- From `auth.js` `mintOAuthState`: record the (randomly generated, here
given) state token with its shop and expiry; `Map.set` updates in place or
appends. -/
def mintOAuthState (store : OAuthStateStore) (state shop : String)
    (now : Nat) : OAuthStateStore :=
  let record : OAuthStateRecord := { shop := shop, expiresAt := now + OAUTH_STATE_TTL_MS }
  if (store.find? (fun p => p.1 == state)).isSome then
    store.map (fun p => if p.1 == state then (state, record) else p)
  else store ++ [(state, record)]

/-- From `auth.js` `consumeOAuthState`: a missing record fails; otherwise
the record is deleted first, and only then expiry and shop binding are
checked. Returns the verdict and the updated store. -/
def consumeOAuthState (store : OAuthStateStore) (state shop : String)
    (now : Nat) : Bool × OAuthStateStore :=
  match storeGet store state with
  | none => (false, store)
  | some record =>
      let store1 := storeDelete store state
      if record.expiresAt < now then (false, store1)
      else (record.shop == shop, store1)

/-- A raw product whose only interesting field is its tags input; used to
exercise the tag-normalization branch of `transformProduct`. -/
def rawTagProduct (t : TagsInput) : RawProduct :=
  { id := "101"
    title := some "Sample"
    productType := some "Shoes"
    product_type := none
    tags := t
    variants := .absent
    featuredImageUrl := none
    imageSrc := none
    imagesSrc := []
    vendor := none
    handle := some "sample" }

/-- A manual filter set differing from the autopilot defaults (used to
exhibit the settings-save behavior when the mode field is omitted). -/
def customFilters : FilterSettings :=
  { AI_AUTOPILOT_DEFAULTS_filters with excludeViewed := true }

/-- A manual weight set differing from the autopilot defaults. -/
def customWeights : WeightSettings :=
  { AI_AUTOPILOT_DEFAULTS_weights with browsingHistory := 9 / 10 }

theorem find?_filter_ne (state : String) (l : OAuthStateStore) :
    (l.filter (fun p => p.1 ≠ state)).find? (fun p => p.1 == state) = none := by
  induction l with
  | nil => rfl
  | cons hd tl ih =>
      by_cases h : hd.1 = state
      · simp [List.filter_cons, h, ih]
      · simp [List.filter_cons, h, List.find?_cons, beq_iff_eq, ih]

theorem storeGet_storeDelete (store : OAuthStateStore) (state : String) :
    storeGet (storeDelete store state) state = none := by
  simp [storeGet, storeDelete, find?_filter_ne]

theorem consumeOAuthState_snd (store : OAuthStateStore) (state shop : String)
    (now : Nat) (r : OAuthStateRecord) (h : storeGet store state = some r) :
    (consumeOAuthState store state shop now).2 = storeDelete store state := by
  simp only [consumeOAuthState, h]
  split <;> rfl

/-- Claim C9: a given OAuth state token can be successfully consumed at
most once. `consumeOAuthState` fails closed when the token is missing from
the store, when its record has expired, and when the record is bound to a
different shop; and after any consumption attempt, a second attempt with
the same token fails — for every shop and every (even pre-expiry) time. -/
theorem consumeOAuthState_at_most_once
    (store : OAuthStateStore) (state shop : String) (now : Nat) :
    (storeGet store state = none →
      consumeOAuthState store state shop now = (false, store)) ∧
    (∀ r, storeGet store state = some r → r.expiresAt < now →
      (consumeOAuthState store state shop now).1 = false) ∧
    (∀ r, storeGet store state = some r → r.shop ≠ shop →
      (consumeOAuthState store state shop now).1 = false) ∧
    (∀ shop2 now2,
      (consumeOAuthState (consumeOAuthState store state shop now).2
          state shop2 now2).1 = false) := by
  refine ⟨?_, ?_, ?_, ?_⟩
  · intro h
    simp [consumeOAuthState, h]
  · intro r hr hexp
    simp [consumeOAuthState, hr, hexp]
  · intro r hr hs
    by_cases h2 : r.expiresAt < now <;>
      simp [consumeOAuthState, hr, h2, beq_iff_eq, hs]
  · intro shop2 now2
    cases hg : storeGet store state with
    | none =>
        have h1 : consumeOAuthState store state shop now = (false, store) := by
          simp [consumeOAuthState, hg]
        rw [h1]
        simp [consumeOAuthState, hg]
    | some r =>
        rw [consumeOAuthState_snd store state shop now r hg]
        simp [consumeOAuthState, storeGet_storeDelete]

theorem consumeOAuthState_at_most_once_witness :
    (consumeOAuthState [("tok1", { shop := "a.myshopify.com", expiresAt := 1000 })]
        "tok1" "b.myshopify.com" 500).1 = false :=
  (consumeOAuthState_at_most_once
      [("tok1", { shop := "a.myshopify.com", expiresAt := 1000 })]
      "tok1" "b.myshopify.com" 500).2.2.1
    { shop := "a.myshopify.com", expiresAt := 1000 } (by decide) (by decide)

/-- Claim C10: whenever the token is present in the store,
`consumeOAuthState` deletes the entry before validating expiry or shop
binding, so even a failed attempt permanently invalidates the token: the
resulting store no longer contains it, and no later attempt with the same
token — any shop, any time — can succeed. -/
theorem consumeOAuthState_invalidates_permanently
    (store : OAuthStateStore) (state shop : String) (now : Nat)
    (r : OAuthStateRecord) (h : storeGet store state = some r) :
    (consumeOAuthState store state shop now).2 = storeDelete store state ∧
    storeGet (consumeOAuthState store state shop now).2 state = none ∧
    (∀ shop2 now2,
      (consumeOAuthState (consumeOAuthState store state shop now).2
          state shop2 now2).1 = false) := by
  have h2 := consumeOAuthState_snd store state shop now r h
  refine ⟨h2, ?_, ?_⟩
  · rw [h2]
    exact storeGet_storeDelete store state
  · intro shop2 now2
    rw [h2]
    simp [consumeOAuthState, storeGet_storeDelete]

theorem consumeOAuthState_invalidates_permanently_witness :
    (consumeOAuthState [("tok2", { shop := "a.myshopify.com", expiresAt := 99 })]
        "tok2" "a.myshopify.com" 500).2
      = storeDelete [("tok2", { shop := "a.myshopify.com", expiresAt := 99 })] "tok2" ∧
    storeGet (consumeOAuthState [("tok2", { shop := "a.myshopify.com", expiresAt := 99 })]
        "tok2" "a.myshopify.com" 500).2 "tok2" = none ∧
    (∀ shop2 now2,
      (consumeOAuthState (consumeOAuthState
          [("tok2", { shop := "a.myshopify.com", expiresAt := 99 })]
          "tok2" "a.myshopify.com" 500).2 "tok2" shop2 now2).1 = false) :=
  consumeOAuthState_invalidates_permanently
    [("tok2", { shop := "a.myshopify.com", expiresAt := 99 })]
    "tok2" "a.myshopify.com" 500
    { shop := "a.myshopify.com", expiresAt := 99 } (by decide)

/-- Claim C6: when a recommendation request carries no current-product id
but at least one cart item, the engine pivot is the normalized FIRST cart
item; in particular cart `["gid://.../10", "gid://.../20"]` with no
product context pivots on `"gid://.../10"`. -/
theorem effectiveProductId_first_cart_item (c : String) (rest : List String) :
    effectiveProductId none (c :: rest) = some (toGid c) ∧
    effectiveProductId none ["gid://.../10", "gid://.../20"]
      = some "gid://.../10" := by
  constructor
  · simp [effectiveProductId, addedToCartHistory, jsSetDedup, jsSetDedupAux,
      List.take]
  · decide

/-- Claim C4: `deleteProduct` normalizes the incoming id and deletes the
matching row of that merchant; when the merchant is left with zero
products it issues a clear-merchant-data engine call (not an empty push),
and otherwise re-pushes the full remaining product list. -/
theorem deleteProduct_clear_or_push
    (shop pid : String) (st : SyncState) (m : Merchant)
    (h : findMerchant st shop = some m) :
    ∃ st2 call, deleteProduct shop pid st = .ok (st2, call) ∧
      st2.merchants = st.merchants ∧
      st2.products = st.products.eraseP
        (fun r => r.merchantId == m.mid &&
          r.product.shopifyProductId == normalizeProductId pid) ∧
      (st2.products.filter (fun r => r.merchantId == m.mid) = [] →
        call = .clearMerchant shop) ∧
      (st2.products.filter (fun r => r.merchantId == m.mid) ≠ [] →
        call = .registerProducts shop
          ((st2.products.filter (fun r => r.merchantId == m.mid)).map
            (fun r => toFlaskProduct r.product))) := by
  simp only [deleteProduct, h]
  by_cases hrem :
      (st.products.eraseP
        (fun r => r.merchantId == m.mid &&
          r.product.shopifyProductId == normalizeProductId pid)).filter
        (fun r => r.merchantId == m.mid) = []
  · simp only [hrem, List.map_nil, List.length_nil, if_pos rfl]
    exact ⟨_, _, rfl, rfl, rfl, fun _ => rfl, fun hne => absurd hrem hne⟩
  · have hlen :
        ((st.products.eraseP
          (fun r => r.merchantId == m.mid &&
            r.product.shopifyProductId == normalizeProductId pid)).filter
          (fun r => r.merchantId == m.mid)).length ≠ 0 := by
      simpa [List.length_eq_zero] using hrem
    simp only [List.length_map, if_neg hlen]
    exact ⟨_, _, rfl, rfl, rfl, fun hc => absurd hc hrem, fun _ => rfl⟩

theorem deleteProduct_clear_or_push_witness :
    ∃ st2 call,
      deleteProduct "s1.myshopify.com" "101"
        { merchants := [{ mid := 1, shop := "s1.myshopify.com", lastSync := none }],
          products := [{ merchantId := 1, product := transformProduct (rawTagProduct .null) }] }
        = .ok (st2, call) ∧
      st2.merchants = [{ mid := 1, shop := "s1.myshopify.com", lastSync := none }] ∧
      st2.products =
        ([{ merchantId := 1, product := transformProduct (rawTagProduct .null) }] :
            List ProductRow).eraseP
          (fun r => r.merchantId == 1 &&
            r.product.shopifyProductId == normalizeProductId "101") ∧
      (st2.products.filter (fun r => r.merchantId == 1) = [] →
        call = .clearMerchant "s1.myshopify.com") ∧
      (st2.products.filter (fun r => r.merchantId == 1) ≠ [] →
        call = .registerProducts "s1.myshopify.com"
          ((st2.products.filter (fun r => r.merchantId == 1)).map
            (fun r => toFlaskProduct r.product))) :=
  deleteProduct_clear_or_push "s1.myshopify.com" "101"
    { merchants := [{ mid := 1, shop := "s1.myshopify.com", lastSync := none }],
      products := [{ merchantId := 1, product := transformProduct (rawTagProduct .null) }] }
    { mid := 1, shop := "s1.myshopify.com", lastSync := none } (by decide)

theorem find?_stampLastSync (l : List Merchant) (shop : String) (now : Nat)
    (m : Merchant) (h : l.find? (fun x => x.shop == shop) = some m) :
    (l.map (fun x => if x.shop == shop then { x with lastSync := some now }
        else x)).find? (fun x => x.shop == shop)
      = some { m with lastSync := some now } := by
  induction l with
  | nil => simp at h
  | cons hd tl ih =>
      by_cases hh : hd.shop = shop
      · have hm : hd = m := by
          have := h
          simp [List.find?_cons, hh] at this
          exact this
        subst hm
        simp [List.find?_cons, hh]
      · have ht : tl.find? (fun x => x.shop == shop) = some m := by
          have := h
          simpa [List.find?_cons, hh] using this
        have hmap : (if (hd.shop == shop) = true
            then { hd with lastSync := some now } else hd) = hd := by
          simp [hh]
        rw [List.map_cons, hmap, List.find?_cons_of_neg _ (by simp [hh])]
        exact ih ht

/-- Claim C1: for a known merchant, `fullSync` leaves the local mirror
holding exactly the transformed external catalog — old rows of that
merchant are gone, other merchants' rows untouched, and the merchant's
rows are duplicate-free whenever the transformed ids are distinct — and
running `fullSync` again with an unchanged external catalog reproduces the
identical local product set (and engine push). -/
theorem fullSync_exact_and_idempotent
    (shop : String) (catalog : List RawProduct) (now : Nat)
    (st : SyncState) (m : Merchant)
    (h : findMerchant st shop = some m) :
    ∃ st2 push, fullSync shop catalog now st = .ok (st2, push) ∧
      (st2.products.filter (fun r => r.merchantId = m.mid)).map ProductRow.product
        = catalog.map transformProduct ∧
      st2.products.filter (fun r => r.merchantId ≠ m.mid)
        = st.products.filter (fun r => r.merchantId ≠ m.mid) ∧
      push = (catalog.map transformProduct).map toFlaskProduct ∧
      ((catalog.map (fun sp => (transformProduct sp).shopifyProductId)).Nodup →
        ((st2.products.filter (fun r => r.merchantId = m.mid)).map
          (fun r => r.product.shopifyProductId)).Nodup) ∧
      (∀ now2, ∃ st3 push2, fullSync shop catalog now2 st2 = .ok (st3, push2) ∧
        st3.products = st2.products ∧ push2 = push) := by
  have hfilter_into :
      ∀ (l : List ProductRow),
        (l.filter (fun r => r.merchantId ≠ m.mid)).filter
          (fun r => r.merchantId = m.mid) = [] := by
    intro l
    refine List.filter_eq_nil_iff.mpr ?_
    intro a ha
    have := (List.mem_filter.mp ha).2
    simp only [decide_eq_true_eq] at this ⊢
    exact fun hc => this hc
  have hfilter_idem :
      ∀ (l : List ProductRow),
        (l.filter (fun r => r.merchantId ≠ m.mid)).filter
          (fun r => r.merchantId ≠ m.mid)
          = l.filter (fun r => r.merchantId ≠ m.mid) := by
    intro l
    refine List.filter_eq_self.mpr ?_
    intro a ha
    exact (List.mem_filter.mp ha).2
  have hsave_all :
      (catalog.map (fun sp => ProductRow.mk m.mid (transformProduct sp))).filter
        (fun r => r.merchantId = m.mid)
        = catalog.map (fun sp => ProductRow.mk m.mid (transformProduct sp)) := by
    refine List.filter_eq_self.mpr ?_
    intro a ha
    obtain ⟨sp, _, rfl⟩ := List.mem_map.mp ha
    simp
  have hsave_none :
      (catalog.map (fun sp => ProductRow.mk m.mid (transformProduct sp))).filter
        (fun r => r.merchantId ≠ m.mid) = [] := by
    refine List.filter_eq_nil_iff.mpr ?_
    intro a ha
    obtain ⟨sp, _, rfl⟩ := List.mem_map.mp ha
    simp
  simp only [fullSync, h]
  have hA :
      (((st.products.filter (fun r => r.merchantId ≠ m.mid)) ++
          catalog.map (fun sp => ProductRow.mk m.mid (transformProduct sp))).filter
        (fun r => r.merchantId = m.mid)).map ProductRow.product
        = catalog.map transformProduct := by
    rw [List.filter_append, hfilter_into, hsave_all, List.nil_append,
      List.map_map]
    rfl
  have hB :
      ((st.products.filter (fun r => r.merchantId ≠ m.mid)) ++
          catalog.map (fun sp => ProductRow.mk m.mid (transformProduct sp))).filter
        (fun r => r.merchantId ≠ m.mid)
        = st.products.filter (fun r => r.merchantId ≠ m.mid) := by
    rw [List.filter_append, hfilter_idem, hsave_none, List.append_nil]
  refine ⟨_, _, rfl, hA, hB, ?_, ?_, ?_⟩
  · rw [List.map_map, List.map_map]
    rfl
  · intro hnd
    have hids := congrArg (List.map Product.shopifyProductId) hA
    rw [List.map_map] at hids
    rw [List.map_map] at hids
    have : ((st.products.filter (fun r => r.merchantId ≠ m.mid) ++
        catalog.map (fun sp => ProductRow.mk m.mid (transformProduct sp))).filter
          (fun r => r.merchantId = m.mid)).map
          (fun r => r.product.shopifyProductId)
        = catalog.map (fun sp => (transformProduct sp).shopifyProductId) := hids
    rw [this]
    exact hnd
  · intro now2
    have hfind2 :
        findMerchant
          { merchants := st.merchants.map
              (fun x => if x.shop == shop then { x with lastSync := some now } else x),
            products := st.products.filter (fun r => r.merchantId ≠ m.mid) ++
              catalog.map (fun sp => ProductRow.mk m.mid (transformProduct sp)) }
          shop = some { m with lastSync := some now } :=
      find?_stampLastSync st.merchants shop now m h
    simp only [fullSync, hfind2]
    refine ⟨_, _, rfl, ?_, rfl⟩
    show (st.products.filter (fun r => r.merchantId ≠ m.mid) ++
        catalog.map (fun sp => ProductRow.mk m.mid (transformProduct sp))).filter
          (fun r => r.merchantId ≠ m.mid) ++
        catalog.map (fun sp => ProductRow.mk m.mid (transformProduct sp))
      = st.products.filter (fun r => r.merchantId ≠ m.mid) ++
        catalog.map (fun sp => ProductRow.mk m.mid (transformProduct sp))
    rw [hB]

theorem fullSync_exact_and_idempotent_witness :
    ∃ st2 push,
      fullSync "s1.myshopify.com" [rawTagProduct (.str "a, b ,b,")] 5
        { merchants := [{ mid := 1, shop := "s1.myshopify.com", lastSync := none }],
          products := [] } = .ok (st2, push) ∧
      (st2.products.filter (fun r => r.merchantId = 1)).map ProductRow.product
        = [rawTagProduct (.str "a, b ,b,")].map transformProduct ∧
      st2.products.filter (fun r => r.merchantId ≠ 1)
        = ([] : List ProductRow).filter (fun r => r.merchantId ≠ 1) ∧
      push = ([rawTagProduct (.str "a, b ,b,")].map transformProduct).map
        toFlaskProduct ∧
      (([rawTagProduct (.str "a, b ,b,")].map
          (fun sp => (transformProduct sp).shopifyProductId)).Nodup →
        ((st2.products.filter (fun r => r.merchantId = 1)).map
          (fun r => r.product.shopifyProductId)).Nodup) ∧
      (∀ now2, ∃ st3 push2,
        fullSync "s1.myshopify.com" [rawTagProduct (.str "a, b ,b,")] now2 st2
          = .ok (st3, push2) ∧
        st3.products = st2.products ∧ push2 = push) :=
  fullSync_exact_and_idempotent "s1.myshopify.com"
    [rawTagProduct (.str "a, b ,b,")] 5
    { merchants := [{ mid := 1, shop := "s1.myshopify.com", lastSync := none }],
      products := [] }
    { mid := 1, shop := "s1.myshopify.com", lastSync := none } (by decide)

theorem foldl_removeStale (l : List WebhookSub) (a : ReconcileState) :
    l.foldl (fun a w =>
      { a with removed := a.removed + 1, deletedIds := a.deletedIds ++ [w.id] }) a
      = { a with
          removed := a.removed + l.length
          deletedIds := a.deletedIds ++ l.map (fun w => w.id) } := by
  induction l generalizing a with
  | nil => simp
  | cons hd tl ih =>
      rw [List.foldl_cons, ih]
      simp [Nat.add_comm, Nat.add_assoc, Nat.add_left_comm]


theorem ensureTopic_no_match (host : String) (existing : List WebhookSub)
    (sub : DesiredSub)
    (hm : (existing.filter (fun w => w.topic == sub.topic)).filter
      (fun w => normalizeAddress (some w.address) == host ++ sub.path) = []) :
    ensureTopic host existing sub
      { created := 0, removed := 0, unchanged := 0, deletedIds := [], createdSubs := [] }
      = { created := 1
          removed := ((existing.filter (fun w => w.topic == sub.topic)).filter
            (fun w => normalizeAddress (some w.address) != host ++ sub.path)).length
          unchanged := 0
          deletedIds := ((existing.filter (fun w => w.topic == sub.topic)).filter
            (fun w => normalizeAddress (some w.address) != host ++ sub.path)).map
              (fun w => w.id)
          createdSubs := [(sub.topic, host ++ sub.path)] } := by
  simp only [ensureTopic, hm, foldl_removeStale]
  simp

theorem ensureTopic_with_match (host : String) (existing : List WebhookSub)
    (sub : DesiredSub)
    (hm : (existing.filter (fun w => w.topic == sub.topic)).filter
      (fun w => normalizeAddress (some w.address) == host ++ sub.path) ≠ []) :
    ensureTopic host existing sub
      { created := 0, removed := 0, unchanged := 0, deletedIds := [], createdSubs := [] }
      = { created := 0
          removed := ((existing.filter (fun w => w.topic == sub.topic)).filter
              (fun w => normalizeAddress (some w.address) != host ++ sub.path)).length
            + (((existing.filter (fun w => w.topic == sub.topic)).filter
              (fun w => normalizeAddress (some w.address) == host ++ sub.path)).length
              - 1)
          unchanged := 1
          deletedIds := ((existing.filter (fun w => w.topic == sub.topic)).filter
              (fun w => normalizeAddress (some w.address) != host ++ sub.path)).map
                (fun w => w.id)
            ++ ((((existing.filter (fun w => w.topic == sub.topic)).filter
              (fun w => normalizeAddress (some w.address) == host ++ sub.path)).drop
                1).map (fun w => w.id))
          createdSubs := [] } := by
  have hlen : 0 < ((existing.filter (fun w => w.topic == sub.topic)).filter
      (fun w => normalizeAddress (some w.address) == host ++ sub.path)).length :=
    List.length_pos.mpr hm
  simp only [ensureTopic, foldl_removeStale, gt_iff_lt, hlen, if_true]
  simp [List.length_drop]

/-- Claim C3: for a desired topic, `registerWebhooks` deletes every
existing subscription of that topic at a non-desired address (each counted
as removed); when at least one subscription already matches the desired
address it keeps exactly one — deleting the duplicate copies, each also
counted as removed — and counts the topic unchanged; otherwise it creates
one at the desired address and counts it created. In particular one stale
subscription and no match yields `{created:1, removed:1, unchanged:0}`,
and two matching subscriptions yield `{created:0, removed:1, unchanged:1}`. -/
theorem registerWebhooks_reconciles
    (hostEnv : Option String) (sub : DesiredSub) (existing : List WebhookSub)
    (hhost : normalizeHost hostEnv ≠ "") :
    (∃ r, registerWebhooks hostEnv [sub] existing = .ok r ∧
      (((existing.filter (fun w => w.topic == sub.topic)).filter
          (fun w => normalizeAddress (some w.address)
            == normalizeHost hostEnv ++ sub.path)) = [] →
        r = { created := 1
              removed := ((existing.filter (fun w => w.topic == sub.topic)).filter
                (fun w => normalizeAddress (some w.address)
                  != normalizeHost hostEnv ++ sub.path)).length
              unchanged := 0
              deletedIds := ((existing.filter (fun w => w.topic == sub.topic)).filter
                (fun w => normalizeAddress (some w.address)
                  != normalizeHost hostEnv ++ sub.path)).map (fun w => w.id)
              createdSubs := [(sub.topic, normalizeHost hostEnv ++ sub.path)] }) ∧
      (((existing.filter (fun w => w.topic == sub.topic)).filter
          (fun w => normalizeAddress (some w.address)
            == normalizeHost hostEnv ++ sub.path)) ≠ [] →
        r = { created := 0
              removed := ((existing.filter (fun w => w.topic == sub.topic)).filter
                  (fun w => normalizeAddress (some w.address)
                    != normalizeHost hostEnv ++ sub.path)).length
                + (((existing.filter (fun w => w.topic == sub.topic)).filter
                  (fun w => normalizeAddress (some w.address)
                    == normalizeHost hostEnv ++ sub.path)).length - 1)
              unchanged := 1
              deletedIds := ((existing.filter (fun w => w.topic == sub.topic)).filter
                  (fun w => normalizeAddress (some w.address)
                    != normalizeHost hostEnv ++ sub.path)).map (fun w => w.id)
                ++ ((((existing.filter (fun w => w.topic == sub.topic)).filter
                  (fun w => normalizeAddress (some w.address)
                    == normalizeHost hostEnv ++ sub.path)).drop 1).map
                    (fun w => w.id))
              createdSubs := [] })) ∧
    registerWebhooks (some "https://app.example.com")
      [{ topic := "PRODUCTS_CREATE", path := "/webhooks/products/create" }]
      [{ id := "w1", topic := "PRODUCTS_CREATE",
         address := "https://old.example.com/webhooks/products/create" }]
      = .ok { created := 1, removed := 1, unchanged := 0,
              deletedIds := ["w1"],
              createdSubs := [("PRODUCTS_CREATE",
                "https://app.example.com/webhooks/products/create")] } ∧
    registerWebhooks (some "https://app.example.com")
      [{ topic := "PRODUCTS_CREATE", path := "/webhooks/products/create" }]
      [{ id := "w1", topic := "PRODUCTS_CREATE",
         address := "https://app.example.com/webhooks/products/create" },
       { id := "w2", topic := "PRODUCTS_CREATE",
         address := "https://app.example.com/webhooks/products/create" }]
      = .ok { created := 0, removed := 1, unchanged := 1,
              deletedIds := ["w2"], createdSubs := [] } := by
  refine ⟨?_, rfl, rfl⟩
  have hreg : registerWebhooks hostEnv [sub] existing
      = .ok (ensureTopic (normalizeHost hostEnv) existing sub
          { created := 0, removed := 0, unchanged := 0,
            deletedIds := [], createdSubs := [] }) := by
    simp [registerWebhooks, hhost]
  refine ⟨_, hreg, ?_, ?_⟩
  · intro hm
    exact ensureTopic_no_match (normalizeHost hostEnv) existing sub hm
  · intro hm
    exact ensureTopic_with_match (normalizeHost hostEnv) existing sub hm

theorem registerWebhooks_reconciles_witness :
    ∃ r, registerWebhooks (some "https://app.example.com")
        [{ topic := "PRODUCTS_UPDATE", path := "/webhooks/products/update" }]
        [] = .ok r ∧
      ((([] : List WebhookSub).filter
          (fun w => w.topic == "PRODUCTS_UPDATE")).filter
          (fun w => normalizeAddress (some w.address)
            == normalizeHost (some "https://app.example.com")
              ++ "/webhooks/products/update") = [] →
        r = { created := 1
              removed := ((([] : List WebhookSub).filter
                (fun w => w.topic == "PRODUCTS_UPDATE")).filter
                (fun w => normalizeAddress (some w.address)
                  != normalizeHost (some "https://app.example.com")
                    ++ "/webhooks/products/update")).length
              unchanged := 0
              deletedIds := ((([] : List WebhookSub).filter
                (fun w => w.topic == "PRODUCTS_UPDATE")).filter
                (fun w => normalizeAddress (some w.address)
                  != normalizeHost (some "https://app.example.com")
                    ++ "/webhooks/products/update")).map (fun w => w.id)
              createdSubs := [("PRODUCTS_UPDATE",
                normalizeHost (some "https://app.example.com")
                  ++ "/webhooks/products/update")] }) ∧
      ((([] : List WebhookSub).filter
          (fun w => w.topic == "PRODUCTS_UPDATE")).filter
          (fun w => normalizeAddress (some w.address)
            == normalizeHost (some "https://app.example.com")
              ++ "/webhooks/products/update") ≠ [] →
        r = { created := 0
              removed := 0 + (0 - 1)
              unchanged := 1
              deletedIds := []
              createdSubs := [] }) :=
  ((registerWebhooks_reconciles (some "https://app.example.com")
      { topic := "PRODUCTS_UPDATE", path := "/webhooks/products/update" }
      [] (by decide)).1)


theorem dropWhile_eq_self_of_prefix (p : Char → Bool) (b a : List Char)
    (hpre : b <+: a) (ha : a.dropWhile p = a) : b.dropWhile p = b := by
  cases b with
  | nil => rfl
  | cons c cs =>
      obtain ⟨t, ht⟩ := hpre
      subst ht
      have hc : ¬ p c = true := by
        intro hc
        simp only [List.cons_append] at ha
        rw [List.dropWhile_cons_of_pos hc] at ha
        have hle : (List.dropWhile p (cs ++ t)).length ≤ (cs ++ t).length :=
          ((List.dropWhile_suffix p).sublist).length_le
        rw [ha] at hle
        simp at hle
      simp [List.dropWhile_cons, hc]

theorem jsTrim_idem (s : String) : jsTrim (jsTrim s) = jsTrim s := by
  unfold jsTrim
  have hdata :
      (String.mk (((s.data.dropWhile jsWhitespace).reverse.dropWhile
        jsWhitespace).reverse)).data
      = ((s.data.dropWhile jsWhitespace).reverse.dropWhile
        jsWhitespace).reverse := rfl
  rw [hdata]
  have hpre :
      ((s.data.dropWhile jsWhitespace).reverse.dropWhile jsWhitespace).reverse
        <+: s.data.dropWhile jsWhitespace := by
    have h2 := List.reverse_prefix.mpr
      (List.dropWhile_suffix (l := (s.data.dropWhile jsWhitespace).reverse)
        jsWhitespace)
    simpa using h2
  have hstep1 :
      (((s.data.dropWhile jsWhitespace).reverse.dropWhile
        jsWhitespace).reverse).dropWhile jsWhitespace
      = ((s.data.dropWhile jsWhitespace).reverse.dropWhile
        jsWhitespace).reverse :=
    dropWhile_eq_self_of_prefix jsWhitespace _ _ hpre (List.dropWhile_idempotent _ _)
  rw [hstep1]
  have hstep2 :
      ((((s.data.dropWhile jsWhitespace).reverse.dropWhile
        jsWhitespace).reverse).reverse).dropWhile jsWhitespace
      = (((s.data.dropWhile jsWhitespace).reverse.dropWhile
        jsWhitespace).reverse).reverse := by
    rw [List.reverse_reverse]
    exact List.dropWhile_idempotent _ _
  rw [hstep2, List.reverse_reverse]

/-- Claim C2 counterexample: the transform does NOT deduplicate tags — the
delimited string input yields `["a", "b", "b"]` (not `["a", "b"]`) and the
list input yields `["x", "x", "y"]` (not `["x", "y"]`). -/
theorem transformProduct_tags_counterexample :
    (transformProduct (rawTagProduct (.str "a, b ,b,"))).tags = ["a", "b", "b"] ∧
    (transformProduct (rawTagProduct (.str "a, b ,b,"))).tags ≠ ["a", "b"] ∧
    (transformProduct (rawTagProduct (.arr ["x", "x", " y "]))).tags
      = ["x", "x", "y"] ∧
    (transformProduct (rawTagProduct (.arr ["x", "x", " y "]))).tags
      ≠ ["x", "y"] :=
  ⟨by decide, by decide, by decide, by decide⟩

/-- Claim C2 (amended): the transform normalizes tags arriving as a list or
a comma-delimited string into a trimmed, non-empty string list WITHOUT
deduplication (duplicates are preserved in order), and never fails on
missing tag input (degrading to `[]`): every produced tag is non-empty and
trim-stable, `"a, b ,b,"` yields `["a", "b", "b"]`, the list
`["x", "x", " y "]` yields `["x", "x", "y"]`, and absent tags yield `[]`. -/
theorem transformProduct_tags_amended (p : RawProduct) :
    (∀ t ∈ (transformProduct p).tags, t ≠ "" ∧ jsTrim t = t) ∧
    (transformProduct (rawTagProduct (.str "a, b ,b,"))).tags = ["a", "b", "b"] ∧
    (transformProduct (rawTagProduct (.arr ["x", "x", " y "]))).tags
      = ["x", "x", "y"] ∧
    (transformProduct (rawTagProduct .null)).tags = [] := by
  refine ⟨?_, by decide, by decide, by decide⟩
  intro t ht
  have htags : (transformProduct p).tags = normalizeTags p.tags := rfl
  rw [htags] at ht
  cases hp : p.tags with
  | arr ts =>
      rw [hp] at ht
      have hmem := List.mem_filter.mp ht
      obtain ⟨x, _, rfl⟩ := List.mem_map.mp hmem.1
      exact ⟨by simpa using hmem.2, jsTrim_idem x⟩
  | str s =>
      rw [hp] at ht
      have hmem := List.mem_filter.mp ht
      obtain ⟨x, _, rfl⟩ := List.mem_map.mp hmem.1
      exact ⟨by simpa using hmem.2, jsTrim_idem x⟩
  | null =>
      rw [hp] at ht
      have hmem := List.mem_filter.mp ht
      obtain ⟨x, _, rfl⟩ := List.mem_map.mp hmem.1
      exact ⟨by simpa using hmem.2, jsTrim_idem x⟩

theorem transformProduct_tags_amended_witness :
    "a" ∈ (transformProduct (rawTagProduct (.str "a, b ,b,"))).tags ∧
    ("a" ≠ "" ∧ jsTrim "a" = "a") :=
  ⟨by decide,
    (transformProduct_tags_amended (rawTagProduct (.str "a, b ,b,"))).1 "a"
      (by decide)⟩

/-- Claim C7 counterexample: a save whose body OMITS the mode field while
the stored settings are in autopilot mode persists the caller-supplied
filters and weights verbatim — the autopilot override fires only on the
payload's own mode field, so the persisted filters/weights differ from the
system defaults although the stored mode remains `ai_autopilot`. -/
theorem saveSettings_autopilot_counterexample :
    saveSettings (some { mid := 1, shop := "s1.myshopify.com", lastSync := none })
      "s1.myshopify.com"
      { mode := none, display := none, filters := some customFilters,
        weights := some customWeights, design := none }
      (some (schemaDefaultSettings "s1.myshopify.com"))
      = .ok { shop := "s1.myshopify.com", mode := "ai_autopilot",
              display := "defaultDisplay", filters := customFilters,
              weights := customWeights, design := "defaultDesign" } ∧
    customFilters ≠ AI_AUTOPILOT_DEFAULTS_filters ∧
    customWeights ≠ AI_AUTOPILOT_DEFAULTS_weights := by
  refine ⟨rfl, ?_, ?_⟩
  · intro h
    have h2 := congrArg FilterSettings.excludeViewed h
    simp [customFilters, AI_AUTOPILOT_DEFAULTS_filters] at h2
  · intro h
    have h2 := congrArg WeightSettings.browsingHistory h
    simp [customWeights, AI_AUTOPILOT_DEFAULTS_weights] at h2
    norm_num at h2

/-- Claim C7 (amended): for every settings save whose request body itself
specifies autopilot mode, whatever filter and weight values the caller
supplies, the persisted filters and weights equal the fixed system
defaults (a save omitting the mode field is not covered: it persists the
supplied values even when the stored mode is autopilot). -/
theorem saveSettings_autopilot_amended
    (merchant : Merchant) (shop : String) (payload : SettingsPayload)
    (existing : Option SettingsDoc)
    (h : payload.mode = some "ai_autopilot") :
    ∃ res, saveSettings (some merchant) shop payload existing = .ok res ∧
      res.filters = AI_AUTOPILOT_DEFAULTS_filters ∧
      res.weights = AI_AUTOPILOT_DEFAULTS_weights ∧
      res.mode = "ai_autopilot" := by
  refine ⟨_, rfl, ?_, ?_, ?_⟩ <;>
    simp [applySettingsUpdate, buildSettingsUpdate, h]

theorem saveSettings_autopilot_amended_witness :
    ∃ res, saveSettings
        (some { mid := 1, shop := "s1.myshopify.com", lastSync := none })
        "s1.myshopify.com"
        { mode := some "ai_autopilot", display := none,
          filters := some customFilters, weights := some customWeights,
          design := none }
        none = .ok res ∧
      res.filters = AI_AUTOPILOT_DEFAULTS_filters ∧
      res.weights = AI_AUTOPILOT_DEFAULTS_weights ∧
      res.mode = "ai_autopilot" :=
  saveSettings_autopilot_amended
    { mid := 1, shop := "s1.myshopify.com", lastSync := none }
    "s1.myshopify.com"
    { mode := some "ai_autopilot", display := none,
      filters := some customFilters, weights := some customWeights,
      design := none }
    none rfl

/-- Claim C8 counterexample: with a valid signature and payload but a
failing downstream sync, the product webhook handler answers HTTP 500
`Error` — not a success acknowledgment. -/
theorem productsWebhookHandler_counterexample :
    (productsWebhookHandler true true (.error "sync failed")).status = 500 ∧
    (productsWebhookHandler true true (.error "sync failed")).status ≠ 200 ∧
    (productsWebhookHandler true true (.error "sync failed")).body = "Error" :=
  ⟨rfl, by decide, rfl⟩

/-- Claim C8 (amended): once signature verification and payload parsing
pass, the product webhook handler acknowledges success (200 `OK`) only
when the downstream sync succeeds; a sync failure is logged AND reflected
in the response as HTTP 500 `Error`, and an invalid signature is rejected
with 401 before any processing. -/
theorem productsWebhookHandler_amended (e : String) :
    productsWebhookHandler true true (.ok ())
      = { status := 200, body := "OK", errorLogged := false } ∧
    productsWebhookHandler true true (.error e)
      = { status := 500, body := "Error", errorLogged := true } ∧
    productsWebhookHandler false true (.error e)
      = { status := 401, body := "Unauthorized", errorLogged := false } :=
  ⟨rfl, rfl, rfl⟩

/-- Claim C5 counterexample: a thrown engine failure during the primary
recommendation lookup IS surfaced to the caller as an HTTP 500 error
response, by both the server route and the Remix loader — neither falls
back to the popular query on a thrown failure. -/
theorem recommendations_fallback_counterexample :
    (apiRecommendHandler (some "s1.myshopify.com") true
      (.error "connect ECONNREFUSED") (fun _ => none)).status = 500 ∧
    (loader (some "s1.myshopify.com") (some "123")
      (.error "timeout of 3000ms exceeded")
      (.ok { products := [{ shopify_product_id := "gid://shopify/Product/9" }] })).status
      = 500 :=
  ⟨rfl, rfl⟩

/-- Claim C5 (amended): the Remix loader falls back to the merchant-scoped
popular-items payload only when the primary lookup SUCCEEDS with a null or
empty recommendation set; a thrown engine failure is surfaced as an HTTP
500 error response by both the loader and the server route (the
popular-on-failure fallback lives in the storefront widget, outside these
handlers). -/
theorem recommendations_fallback_amended
    (mId pId shop : String) (hm : mId ≠ "") (hp : pId ≠ "") (hs : shop ≠ "")
    (pop : PopularData) (e : String) (handleOf : String → Option String) :
    loader (some mId) (some pId) (.ok (some { recommendations := some [] }))
        (.ok pop) = { status := 200, body := .popularJson pop } ∧
    loader (some mId) (some pId) (.ok none) (.ok pop)
      = { status := 200, body := .popularJson pop } ∧
    loader (some mId) (some pId) (.error e) (.ok pop)
      = { status := 500, body := .errorJson e } ∧
    apiRecommendHandler (some shop) true (.error e) handleOf
      = { status := 500, body := .recommendFailure e } := by
  refine ⟨?_, ?_, ?_, ?_⟩ <;>
    simp [loader, apiRecommendHandler, jsOr, hm, hp, hs]

theorem recommendations_fallback_amended_witness :
    loader (some "s1.myshopify.com") (some "123")
        (.ok (some { recommendations := some [] })) (.ok { products := [] })
      = { status := 200, body := .popularJson { products := [] } } ∧
    loader (some "s1.myshopify.com") (some "123") (.ok none)
        (.ok { products := [] })
      = { status := 200, body := .popularJson { products := [] } } ∧
    loader (some "s1.myshopify.com") (some "123") (.error "boom")
        (.ok { products := [] })
      = { status := 500, body := .errorJson "boom" } ∧
    apiRecommendHandler (some "s1.myshopify.com") true (.error "boom")
        (fun _ => none)
      = { status := 500, body := .recommendFailure "boom" } :=
  recommendations_fallback_amended "s1.myshopify.com" "123" "s1.myshopify.com"
    (by decide) (by decide) (by decide) { products := [] } "boom" (fun _ => none)
